import Mathlib

/-!
# Verification of the solar PV economics engine

A shallow embedding of the computational core of the repository
(`constants.py`, `utils.py`): annual generation, monthly distribution,
heating adjustment, self-consumption with and without a battery, annual
financials, loan amortization, and the multi-year cashflow projection.
Python floats are modelled by exact rationals (ℚ); dictionary lookups by
`Option`-valued functions; the `None` payback sentinel by `Option ℕ`.
-/

/-! ## Constants (`constants.py`) -/

def HOURS_PER_YEAR : ℚ := 8760

def DAYS_PER_YEAR : ℚ := 365

def EV_EFFICIENCY_KWH_PER_MILE : ℚ := 3/10

def REGION_CAPACITY_FACTOR : String → Option ℚ
  | "South England" => some (13/100)
  | "Midlands" => some (12/100)
  | "North/Scotland" => some (11/100)
  | _ => none

def ORIENTATION_FACTOR : String → Option ℚ
  | "Ideal (South)" => some 1
  | "OK (SE/SW)" => some (9/10)
  | "Suboptimal (E/W)" => some (8/10)
  | "Poor (North/shaded)" => some (6/10)
  | _ => none

def MONTHLY_FRACTIONS : List ℚ :=
  [3/100, 4/100, 7/100, 10/100, 12/100, 14/100,
   14/100, 12/100, 10/100, 7/100, 4/100, 3/100]

def CONSUMPTION_PROFILE_GAS : List ℚ :=
  [9/100, 85/1000, 8/100, 75/1000, 7/100, 7/100,
   7/100, 7/100, 75/1000, 8/100, 85/1000, 9/100]

def CONSUMPTION_PROFILE_ELECTRIC : List ℚ :=
  [14/100, 13/100, 11/100, 7/100, 5/100, 4/100,
   4/100, 4/100, 6/100, 9/100, 11/100, 12/100]

/-- One entry of the `HEATING_TYPES` catalog.  The `Gas/Oil boiler` entry
has no `base_usage_multiplier` key in the source, hence the `Option`. -/
structure HeatingInfo where
  profile : List ℚ
  base_usage_multiplier : Option ℚ
deriving Repr, DecidableEq

def HEATING_TYPES : String → Option HeatingInfo
  | "Gas/Oil boiler" => some ⟨CONSUMPTION_PROFILE_GAS, none⟩
  | "Heat pump" => some ⟨CONSUMPTION_PROFILE_ELECTRIC, some (3/2)⟩
  | "Electric resistive" => some ⟨CONSUMPTION_PROFILE_ELECTRIC, some (5/2)⟩
  | _ => none

/-! ## Generation and demand (`utils.py`) -/

structure Generation where
  theoretical : ℚ
  realistic : ℚ
  capacity_factor : ℚ
  kwh_per_kwp : ℚ
deriving Repr, DecidableEq

/-- Annual generation; Python raises `KeyError` on an unknown location or
orientation key, modelled here by `none`. -/
def calculate_generation (kWp : ℚ) (location : String) (orientation : String) :
    Option Generation :=
  match REGION_CAPACITY_FACTOR location, ORIENTATION_FACTOR orientation with
  | some rf, some orf =>
    let e_theoretical := kWp * HOURS_PER_YEAR
    let cf_effective := rf * orf
    let e_realistic := kWp * HOURS_PER_YEAR * cf_effective
    some { theoretical := e_theoretical
           realistic := e_realistic
           capacity_factor := cf_effective
           kwh_per_kwp := if 0 < kWp then e_realistic / kWp else 0 }
  | _, _ => none

def calculate_monthly_generation (e_realistic : ℚ) : List ℚ :=
  MONTHLY_FRACTIONS.map (fun frac => e_realistic * frac)

/-- Monthly consumption distribution; the two-level `.get` falls back to
the gas profile when the heating-type key is absent from the catalog. -/
def calculate_monthly_consumption (d_annual : ℚ) (heating_type : String) : List ℚ :=
  let profile :=
    match HEATING_TYPES heating_type with
    | some h => h.profile
    | none => CONSUMPTION_PROFILE_GAS
  profile.map (fun frac => d_annual * frac)

/-- Base-usage adjustment; falls back to multiplier `1.0` when the key (or
the `base_usage_multiplier` field) is absent. -/
def adjust_consumption_for_heating (base_usage : ℚ) (heating_type : String) : ℚ :=
  let multiplier :=
    match HEATING_TYPES heating_type with
    | some h => h.base_usage_multiplier.getD 1
    | none => 1
  base_usage * multiplier

/-! ## Self-consumption model (`calculate_self_consumption`)

Each local binding of the Python function becomes a named definition with
the same name, parameterised by the function's inputs. -/

def f_direct (e_realistic d_annual daytime_share : ℚ) : ℚ :=
  if 0 < e_realistic then min (8/10 * (d_annual * daytime_share) / e_realistic) (8/10)
  else 0

def e_self_direct (e_realistic d_annual daytime_share : ℚ) : ℚ :=
  e_realistic * f_direct e_realistic d_annual daytime_share

def e_surplus_daily (e_realistic d_annual daytime_share : ℚ) : ℚ :=
  max 0 ((e_realistic - e_self_direct e_realistic d_annual daytime_share) / DAYS_PER_YEAR)

def e_batt_daily (e_realistic d_annual daytime_share battery_kwh : ℚ) : ℚ :=
  min (e_surplus_daily e_realistic d_annual daytime_share) battery_kwh

def e_batt_annual (e_realistic d_annual daytime_share battery_kwh : ℚ) : ℚ :=
  e_batt_daily e_realistic d_annual daytime_share battery_kwh * DAYS_PER_YEAR

def d_remaining_household (e_realistic d_annual daytime_share : ℚ) : ℚ :=
  max 0 (d_annual - e_self_direct e_realistic d_annual daytime_share)

def e_batt_to_house (e_realistic d_annual daytime_share battery_kwh : ℚ) : ℚ :=
  min (e_batt_annual e_realistic d_annual daytime_share battery_kwh)
      (d_remaining_household e_realistic d_annual daytime_share)

def e_batt_remaining (e_realistic d_annual daytime_share battery_kwh : ℚ) : ℚ :=
  e_batt_annual e_realistic d_annual daytime_share battery_kwh -
    e_batt_to_house e_realistic d_annual daytime_share battery_kwh

def ev_from_battery
    (e_realistic d_annual daytime_share battery_kwh ev_annual_kwh ev_solar_share : ℚ) : ℚ :=
  min (e_batt_remaining e_realistic d_annual daytime_share battery_kwh)
      (ev_annual_kwh * ev_solar_share)

def ev_direct_solar
    (e_realistic d_annual daytime_share battery_kwh ev_annual_kwh : ℚ) : ℚ :=
  min (max 0 (e_realistic - e_self_direct e_realistic d_annual daytime_share -
        e_batt_annual e_realistic d_annual daytime_share battery_kwh) * (3/10))
      (ev_annual_kwh * (2/10))

def e_self_batt
    (e_realistic d_annual daytime_share battery_kwh ev_annual_kwh ev_solar_share : ℚ) : ℚ :=
  e_batt_to_house e_realistic d_annual daytime_share battery_kwh +
    ev_from_battery e_realistic d_annual daytime_share battery_kwh ev_annual_kwh ev_solar_share +
    ev_direct_solar e_realistic d_annual daytime_share battery_kwh ev_annual_kwh

structure SelfConsumption where
  e_self_direct : ℚ
  e_export_no_batt : ℚ
  grid_import_no_batt : ℚ
  e_self_batt : ℚ
  e_export_batt : ℚ
  grid_import_with_batt : ℚ
  ev_annual_kwh : ℚ
  ev_from_solar : ℚ
  ev_from_grid : ℚ
  total_demand : ℚ
deriving Repr, DecidableEq

def calculate_self_consumption
    (e_realistic d_annual daytime_share battery_kwh ev_annual_kwh ev_solar_share : ℚ) :
    SelfConsumption :=
  let total_demand := d_annual + ev_annual_kwh
  let esd := e_self_direct e_realistic d_annual daytime_share
  let esb := e_self_batt e_realistic d_annual daytime_share battery_kwh ev_annual_kwh ev_solar_share
  let total_solar_to_ev :=
    ev_from_battery e_realistic d_annual daytime_share battery_kwh ev_annual_kwh ev_solar_share +
      ev_direct_solar e_realistic d_annual daytime_share battery_kwh ev_annual_kwh
  { e_self_direct := esd
    e_export_no_batt := max 0 (e_realistic - esd)
    grid_import_no_batt := max 0 (total_demand - esd)
    e_self_batt := esb
    e_export_batt := max 0 (e_realistic - esd - esb)
    grid_import_with_batt := max 0 (total_demand - esd - esb)
    ev_annual_kwh := ev_annual_kwh
    ev_from_solar := total_solar_to_ev
    ev_from_grid := max 0 (ev_annual_kwh - total_solar_to_ev)
    total_demand := total_demand }

/-! ## Annual financials -/

structure AnnualFinancials where
  cost_baseline : ℚ
  cost_with_pv : ℚ
  income_export : ℚ
  net_saving : ℚ
deriving Repr, DecidableEq

def calculate_annual_financials
    (d_annual grid_import e_export grid_price_p seg_price_p : ℚ) : AnnualFinancials :=
  let p_grid := grid_price_p / 100
  let p_export := seg_price_p / 100
  let cost_baseline := d_annual * p_grid
  let cost_with_pv := grid_import * p_grid
  let income_export := e_export * p_export
  { cost_baseline := cost_baseline
    cost_with_pv := cost_with_pv
    income_export := income_export
    net_saving := (cost_baseline - cost_with_pv) + income_export }

/-! ## Loan amortization and multi-year cashflow -/

def calculate_loan_payment (principal annual_rate : ℚ) (term_years : ℕ) : ℚ :=
  if annual_rate = 0 then
    if 0 < term_years then principal / term_years else 0
  else
    let r := annual_rate / 100
    principal * (r * (1 + r) ^ term_years) / ((1 + r) ^ term_years - 1)

/-- Year-`t` saving inside the projection loop: baseline grid cost minus
with-PV grid cost at the escalated price, plus export income. -/
def net_saving_t
    (d_annual grid_import e_export grid_price_p seg_price_p annual_growth : ℚ)
    (t : ℕ) : ℚ :=
  let p_grid_t := (grid_price_p / 100) * (1 + annual_growth / 100) ^ t
  (d_annual * p_grid_t - grid_import * p_grid_t) + e_export * (seg_price_p / 100)

/-- Year-`t` net benefit: the saving minus the loan or lease payment while
inside the corresponding term (loan branch first, as in the source). -/
def net_benefit_t
    (finance_mode lease_mode : Bool) (loan_term lease_term : ℕ)
    (annual_loan_payment annual_lease_payment saving : ℚ) (t : ℕ) : ℚ :=
  if finance_mode ∧ t ≤ loan_term then saving - annual_loan_payment
  else if lease_mode ∧ t ≤ lease_term then saving - annual_lease_payment
  else saving

/-- Running cumulative sums of a list starting from `seed` (the list of
values taken by `cum_cf` after each loop iteration). -/
def cum_list (seed : ℚ) : List ℚ → List ℚ
  | [] => []
  | x :: xs => (seed + x) :: cum_list (seed + x) xs

def install_cost_of (include_battery : Bool) (pv_cost battery_cost : ℚ) : ℚ :=
  if include_battery then pv_cost + battery_cost else pv_cost

def deposit_amount_of (finance_mode : Bool) (install_cost deposit_pct : ℚ) : ℚ :=
  if finance_mode then install_cost * (deposit_pct / 100) else 0

def loan_amount_of (finance_mode : Bool) (install_cost deposit_amount : ℚ) : ℚ :=
  if finance_mode then install_cost - deposit_amount else 0

def annual_loan_payment_of (finance_mode : Bool) (loan_amount loan_rate : ℚ)
    (loan_term : ℕ) : ℚ :=
  if finance_mode ∧ 0 < loan_amount then
    calculate_loan_payment loan_amount loan_rate loan_term
  else 0

def total_interest_of (finance_mode : Bool) (loan_amount annual_loan_payment : ℚ)
    (loan_term : ℕ) : ℚ :=
  if finance_mode ∧ 0 < loan_amount then annual_loan_payment * loan_term - loan_amount
  else 0

def annual_lease_payment_of (finance_mode lease_mode : Bool)
    (loan_amount monthly_lease : ℚ) : ℚ :=
  if ¬(finance_mode ∧ 0 < loan_amount) ∧ (lease_mode ∧ 0 < monthly_lease) then
    monthly_lease * 12
  else 0

def total_lease_cost_of (finance_mode lease_mode : Bool)
    (loan_amount annual_lease_payment monthly_lease : ℚ) (lease_term : ℕ) : ℚ :=
  if ¬(finance_mode ∧ 0 < loan_amount) ∧ (lease_mode ∧ 0 < monthly_lease) then
    annual_lease_payment * lease_term
  else 0

/-- The `t = 0` cumulative-cashflow seed: deposit for Loan, nothing for
Lease, the full install cost for Purchase. -/
def cum0_of (finance_mode lease_mode : Bool) (deposit_amount install_cost : ℚ) : ℚ :=
  if finance_mode then -deposit_amount
  else if lease_mode then 0
  else -install_cost

def annual_savings_list (d_annual grid_import e_export grid_price_p seg_price_p
    annual_growth : ℚ) (years : ℕ) : List ℚ :=
  (List.range years).map (fun i =>
    net_saving_t d_annual grid_import e_export grid_price_p seg_price_p annual_growth (i + 1))

def annual_net_benefit_list (finance_mode lease_mode : Bool) (loan_term lease_term : ℕ)
    (annual_loan_payment annual_lease_payment : ℚ)
    (d_annual grid_import e_export grid_price_p seg_price_p annual_growth : ℚ)
    (years : ℕ) : List ℚ :=
  (List.range years).map (fun i =>
    net_benefit_t finance_mode lease_mode loan_term lease_term
      annual_loan_payment annual_lease_payment
      (net_saving_t d_annual grid_import e_export grid_price_p seg_price_p annual_growth (i + 1))
      (i + 1))

def discounted_cashflow_list (finance_mode lease_mode : Bool) (loan_term lease_term : ℕ)
    (annual_loan_payment annual_lease_payment : ℚ)
    (d_annual grid_import e_export grid_price_p seg_price_p annual_growth : ℚ)
    (discount_rate : ℚ) (years : ℕ) : List ℚ :=
  (List.range years).map (fun i =>
    net_benefit_t finance_mode lease_mode loan_term lease_term
      annual_loan_payment annual_lease_payment
      (net_saving_t d_annual grid_import e_export grid_price_p seg_price_p annual_growth (i + 1))
      (i + 1) / (1 + discount_rate / 100) ^ (i + 1))

/-- The three NPV branches: the upfront deposit is subtracted in Loan mode,
nothing is subtracted in Lease mode, and nothing in Purchase mode either. -/
def npv_of (finance_mode lease_mode : Bool) (deposit_amount dcf_sum : ℚ) : ℚ :=
  if finance_mode then -deposit_amount + dcf_sum
  else if lease_mode then dcf_sum
  else dcf_sum

/-- One-based index of the first entry `≥ 0`, `none` if there is none
(the `payback` loop with `enumerate` and `break`). -/
def first_payback : List ℚ → Option ℕ
  | [] => none
  | cf :: rest => if 0 ≤ cf then some 1 else (first_payback rest).map (· + 1)

structure CashflowResult where
  install_cost : ℚ
  annual_savings : List ℚ
  annual_net_benefit : List ℚ
  cumulative_cashflow : List ℚ
  payback_years : Option ℕ
  npv : ℚ
  annual_loan_payment : ℚ
  annual_lease_payment : ℚ
  total_interest : ℚ
  total_lease_cost : ℚ
  loan_term : ℕ
  lease_term : ℕ
  deposit_amount : ℚ
  loan_amount : ℚ
deriving Repr, DecidableEq

def calculate_multi_year_cashflow
    (pv_cost battery_cost d_annual : ℚ) (self_consumption : SelfConsumption)
    (grid_price_p seg_price_p annual_growth : ℚ) (years : ℕ) (discount_rate : ℚ)
    (include_battery : Bool) (finance_mode : Bool) (loan_term : ℕ)
    (loan_rate deposit_pct : ℚ) (lease_mode : Bool) (lease_term : ℕ)
    (monthly_lease : ℚ) : CashflowResult :=
  let grid_import :=
    if include_battery then self_consumption.grid_import_with_batt
    else self_consumption.grid_import_no_batt
  let e_export :=
    if include_battery then self_consumption.e_export_batt
    else self_consumption.e_export_no_batt
  let install_cost := install_cost_of include_battery pv_cost battery_cost
  let deposit_amount := deposit_amount_of finance_mode install_cost deposit_pct
  let loan_amount := loan_amount_of finance_mode install_cost deposit_amount
  let annual_loan_payment := annual_loan_payment_of finance_mode loan_amount loan_rate loan_term
  let total_interest := total_interest_of finance_mode loan_amount annual_loan_payment loan_term
  let annual_lease_payment :=
    annual_lease_payment_of finance_mode lease_mode loan_amount monthly_lease
  let total_lease_cost :=
    total_lease_cost_of finance_mode lease_mode loan_amount annual_lease_payment
      monthly_lease lease_term
  let cum0 := cum0_of finance_mode lease_mode deposit_amount install_cost
  let annual_savings :=
    annual_savings_list d_annual grid_import e_export grid_price_p seg_price_p
      annual_growth years
  let annual_net_benefit :=
    annual_net_benefit_list finance_mode lease_mode loan_term lease_term
      annual_loan_payment annual_lease_payment
      d_annual grid_import e_export grid_price_p seg_price_p annual_growth years
  let cumulative_cashflow := cum_list cum0 annual_net_benefit
  let discounted_cashflow :=
    discounted_cashflow_list finance_mode lease_mode loan_term lease_term
      annual_loan_payment annual_lease_payment
      d_annual grid_import e_export grid_price_p seg_price_p annual_growth
      discount_rate years
  let payback := first_payback cumulative_cashflow
  let npv := npv_of finance_mode lease_mode deposit_amount discounted_cashflow.sum
  { install_cost := install_cost
    annual_savings := annual_savings
    annual_net_benefit := annual_net_benefit
    cumulative_cashflow := cumulative_cashflow
    payback_years := payback
    npv := npv
    annual_loan_payment := annual_loan_payment
    annual_lease_payment := annual_lease_payment
    total_interest := total_interest
    total_lease_cost := total_lease_cost
    loan_term := if finance_mode then loan_term else 0
    lease_term := if lease_mode then lease_term else 0
    deposit_amount := deposit_amount
    loan_amount := loan_amount }

/-! ## Structure of the direct self-consumption term -/

variable {e d ds b b1 b2 ev ess : ℚ}

/-- Closed form of `e_self_direct`: the division by `e_realistic` cancels,
leaving the minimum of 80% of daytime demand and 80% of generation. -/
theorem e_self_direct_eq (he : 0 ≤ e) (hdd : 0 ≤ d * ds) :
    e_self_direct e d ds = min (8/10 * (d * ds)) (8/10 * e) := by
  unfold e_self_direct f_direct
  by_cases h : 0 < e
  · rw [if_pos h, mul_min_of_nonneg _ _ he]
    have hne : e ≠ 0 := ne_of_gt h
    congr 1
    · field_simp
      ring
    · ring
  · rw [if_neg h]
    have he0 : e = 0 := le_antisymm (not_lt.mp h) he
    have h8 : 0 ≤ 8/10 * (d * ds) := mul_nonneg (by norm_num) hdd
    subst he0
    simp [min_eq_right h8]

theorem e_self_direct_nonneg (he : 0 ≤ e) (hd : 0 ≤ d) (hds : 0 ≤ ds) :
    0 ≤ e_self_direct e d ds := by
  rw [e_self_direct_eq he (mul_nonneg hd hds)]
  exact le_min (mul_nonneg (by norm_num) (mul_nonneg hd hds)) (mul_nonneg (by norm_num) he)

theorem e_self_direct_le_e (he : 0 ≤ e) (hd : 0 ≤ d) (hds : 0 ≤ ds) :
    e_self_direct e d ds ≤ e := by
  rw [e_self_direct_eq he (mul_nonneg hd hds)]
  have := min_le_right (8/10 * (d * ds)) (8/10 * e)
  linarith

theorem e_self_direct_le_d (he : 0 ≤ e) (hd : 0 ≤ d) (hds0 : 0 ≤ ds) (hds1 : ds ≤ 1) :
    e_self_direct e d ds ≤ d := by
  rw [e_self_direct_eq he (mul_nonneg hd hds0)]
  have h1 : d * ds ≤ d := by nlinarith
  have := min_le_left (8/10 * (d * ds)) (8/10 * e)
  linarith

/-! ## Structure of the battery terms -/

theorem e_batt_annual_nonneg (hb : 0 ≤ b) : 0 ≤ e_batt_annual e d ds b := by
  unfold e_batt_annual e_batt_daily e_surplus_daily DAYS_PER_YEAR
  exact mul_nonneg (le_min (le_max_left _ _) hb) (by norm_num)

/-- Annual battery throughput never exceeds the post-direct surplus. -/
theorem e_batt_annual_le (he : 0 ≤ e) (hd : 0 ≤ d) (hds : 0 ≤ ds) :
    e_batt_annual e d ds b ≤ e - e_self_direct e d ds := by
  unfold e_batt_annual e_batt_daily e_surplus_daily DAYS_PER_YEAR
  have hR : 0 ≤ e - e_self_direct e d ds := sub_nonneg.mpr (e_self_direct_le_e he hd hds)
  have h1 : min (max 0 ((e - e_self_direct e d ds) / 365)) b ≤
      (e - e_self_direct e d ds) / 365 :=
    (min_le_left _ _).trans (max_le (div_nonneg hR (by norm_num)) le_rfl)
  have h2 := mul_le_mul_of_nonneg_right h1 (show (0:ℚ) ≤ 365 by norm_num)
  have h3 : (e - e_self_direct e d ds) / 365 * 365 = e - e_self_direct e d ds := by
    field_simp
  linarith

theorem e_batt_annual_mono (hb12 : b1 ≤ b2) :
    e_batt_annual e d ds b1 ≤ e_batt_annual e d ds b2 := by
  unfold e_batt_annual e_batt_daily
  exact mul_le_mul_of_nonneg_right (min_le_min le_rfl hb12) (by norm_num [DAYS_PER_YEAR])

theorem e_batt_to_house_nonneg (hb : 0 ≤ b) : 0 ≤ e_batt_to_house e d ds b := by
  unfold e_batt_to_house d_remaining_household
  exact le_min (e_batt_annual_nonneg hb) (le_max_left _ _)

theorem e_batt_to_house_le_annual :
    e_batt_to_house e d ds b ≤ e_batt_annual e d ds b := by
  unfold e_batt_to_house
  exact min_le_left _ _

theorem e_batt_to_house_mono (hb12 : b1 ≤ b2) :
    e_batt_to_house e d ds b1 ≤ e_batt_to_house e d ds b2 := by
  unfold e_batt_to_house
  exact min_le_min (e_batt_annual_mono hb12) le_rfl

/-- Direct self-consumption plus battery-to-house never exceeds household demand. -/
theorem e_self_direct_add_to_house_le_d (he : 0 ≤ e) (hd : 0 ≤ d)
    (hds0 : 0 ≤ ds) (hds1 : ds ≤ 1) :
    e_self_direct e d ds + e_batt_to_house e d ds b ≤ d := by
  unfold e_batt_to_house d_remaining_household
  have hAd := e_self_direct_le_d he hd hds0 hds1
  rw [max_eq_right (sub_nonneg.mpr hAd)]
  have h1 : min (e_batt_annual e d ds b) (d - e_self_direct e d ds) ≤
      d - e_self_direct e d ds := min_le_right _ _
  linarith

theorem ev_from_battery_nonneg (hev : 0 ≤ ev) (hess : 0 ≤ ess) :
    0 ≤ ev_from_battery e d ds b ev ess := by
  unfold ev_from_battery
  exact le_min (sub_nonneg.mpr e_batt_to_house_le_annual) (mul_nonneg hev hess)

theorem ev_from_battery_le_share :
    ev_from_battery e d ds b ev ess ≤ ev * ess := by
  unfold ev_from_battery
  exact min_le_right _ _

theorem to_house_add_ev_from_battery_le_annual :
    e_batt_to_house e d ds b + ev_from_battery e d ds b ev ess ≤ e_batt_annual e d ds b := by
  unfold ev_from_battery e_batt_remaining
  have := min_le_left (e_batt_annual e d ds b - e_batt_to_house e d ds b) (ev * ess)
  linarith

theorem ev_direct_solar_nonneg (hev : 0 ≤ ev) :
    0 ≤ ev_direct_solar e d ds b ev := by
  unfold ev_direct_solar
  exact le_min (mul_nonneg (le_max_left _ _) (by norm_num)) (mul_nonneg hev (by norm_num))

theorem ev_direct_solar_le_surplus (he : 0 ≤ e) (hd : 0 ≤ d) (hds : 0 ≤ ds) :
    ev_direct_solar e d ds b ev ≤
      (e - e_self_direct e d ds - e_batt_annual e d ds b) * (3/10) := by
  unfold ev_direct_solar
  have hRB : 0 ≤ e - e_self_direct e d ds - e_batt_annual e d ds b :=
    sub_nonneg.mpr (e_batt_annual_le he hd hds)
  calc min (max 0 (e - e_self_direct e d ds - e_batt_annual e d ds b) * (3/10))
        (ev * (2/10)) ≤
      max 0 (e - e_self_direct e d ds - e_batt_annual e d ds b) * (3/10) := min_le_left _ _
    _ = (e - e_self_direct e d ds - e_batt_annual e d ds b) * (3/10) := by
        rw [max_eq_right hRB]

theorem ev_direct_solar_le_ev :
    ev_direct_solar e d ds b ev ≤ ev * (2/10) := by
  unfold ev_direct_solar
  exact min_le_right _ _

theorem e_self_batt_nonneg (hb : 0 ≤ b) (hev : 0 ≤ ev) (hess : 0 ≤ ess) :
    0 ≤ e_self_batt e d ds b ev ess := by
  unfold e_self_batt
  have h1 := @e_batt_to_house_nonneg e d ds b hb
  have h2 := @ev_from_battery_nonneg e d ds b ev ess hev hess
  have h3 := @ev_direct_solar_nonneg e d ds b ev hev
  linarith

/-- Total with-battery self-consumption never exceeds the post-direct surplus. -/
theorem e_self_batt_le_surplus (he : 0 ≤ e) (hd : 0 ≤ d) (hds : 0 ≤ ds) :
    e_self_batt e d ds b ev ess ≤ e - e_self_direct e d ds := by
  unfold e_self_batt
  have h1 := @to_house_add_ev_from_battery_le_annual e d ds b ev ess
  have h2 := @ev_direct_solar_le_surplus e d ds b ev he hd hds
  have h3 := @e_batt_annual_le e d ds b he hd hds
  linarith

/-- Direct plus with-battery self-consumption never exceeds total demand,
as long as the EV solar share leaves at most 80% for the battery path. -/
theorem e_self_direct_add_batt_le (he : 0 ≤ e) (hd : 0 ≤ d) (hds0 : 0 ≤ ds)
    (hds1 : ds ≤ 1) (hev : 0 ≤ ev) (hess : ess ≤ 8/10) :
    e_self_direct e d ds + e_self_batt e d ds b ev ess ≤ d + ev := by
  unfold e_self_batt
  have h1 := @e_self_direct_add_to_house_le_d e d ds b he hd hds0 hds1
  have h2 := @ev_from_battery_le_share e d ds b ev ess
  have h3 := @ev_direct_solar_le_ev e d ds b ev
  nlinarith

/-! ## Projections of `calculate_self_consumption` -/

theorem csc_e_self_direct :
    (calculate_self_consumption e d ds b ev ess).e_self_direct = e_self_direct e d ds := rfl

theorem csc_e_export_no_batt :
    (calculate_self_consumption e d ds b ev ess).e_export_no_batt =
      max 0 (e - e_self_direct e d ds) := rfl

theorem csc_grid_import_no_batt :
    (calculate_self_consumption e d ds b ev ess).grid_import_no_batt =
      max 0 ((d + ev) - e_self_direct e d ds) := rfl

theorem csc_e_self_batt :
    (calculate_self_consumption e d ds b ev ess).e_self_batt =
      e_self_batt e d ds b ev ess := rfl

theorem csc_e_export_batt :
    (calculate_self_consumption e d ds b ev ess).e_export_batt =
      max 0 (e - e_self_direct e d ds - e_self_batt e d ds b ev ess) := rfl

theorem csc_grid_import_with_batt :
    (calculate_self_consumption e d ds b ev ess).grid_import_with_batt =
      max 0 ((d + ev) - e_self_direct e d ds - e_self_batt e d ds b ev ess) := rfl

theorem csc_ev_annual_kwh :
    (calculate_self_consumption e d ds b ev ess).ev_annual_kwh = ev := rfl

theorem csc_ev_from_solar :
    (calculate_self_consumption e d ds b ev ess).ev_from_solar =
      ev_from_battery e d ds b ev ess + ev_direct_solar e d ds b ev := rfl

theorem csc_ev_from_grid :
    (calculate_self_consumption e d ds b ev ess).ev_from_grid =
      max 0 (ev - (ev_from_battery e d ds b ev ess + ev_direct_solar e d ds b ev)) := rfl

theorem csc_total_demand :
    (calculate_self_consumption e d ds b ev ess).total_demand = d + ev := rfl

/-! ## Degenerate battery / EV inputs -/

theorem e_surplus_daily_nonneg : 0 ≤ e_surplus_daily e d ds := by
  unfold e_surplus_daily
  exact le_max_left _ _

theorem e_batt_annual_zero : e_batt_annual e d ds 0 = 0 := by
  unfold e_batt_annual e_batt_daily
  rw [min_eq_right (e_surplus_daily_nonneg)]
  exact zero_mul _

theorem e_batt_to_house_zero : e_batt_to_house e d ds 0 = 0 := by
  unfold e_batt_to_house d_remaining_household
  rw [e_batt_annual_zero]
  exact min_eq_left (le_max_left _ _)

theorem ev_from_battery_ev_zero : ev_from_battery e d ds b 0 ess = 0 := by
  unfold ev_from_battery e_batt_remaining
  rw [zero_mul]
  exact min_eq_right (sub_nonneg.mpr e_batt_to_house_le_annual)

theorem ev_direct_solar_ev_zero : ev_direct_solar e d ds b 0 = 0 := by
  unfold ev_direct_solar
  rw [zero_mul]
  exact min_eq_right (mul_nonneg (le_max_left _ _) (by norm_num))

theorem e_self_batt_ev_zero : e_self_batt e d ds b 0 ess = e_batt_to_house e d ds b := by
  unfold e_self_batt
  rw [ev_from_battery_ev_zero, ev_direct_solar_ev_zero, add_zero, add_zero]

/-- C2: for nonnegative generation and demand, daytime share in `[0,1]`,
nonnegative battery and EV demand, and EV solar share `0.3`, the
self-consumption model conserves energy with and without the battery and
every returned quantity is nonnegative. -/
theorem claim_C2_energy_conservation (e d ds b ev ess : ℚ) (he : 0 ≤ e) (hd : 0 ≤ d)
    (hds0 : 0 ≤ ds) (hds1 : ds ≤ 1) (hb : 0 ≤ b) (hev : 0 ≤ ev) (hess : ess = 3/10) :
    (calculate_self_consumption e d ds b ev ess).e_self_direct +
        (calculate_self_consumption e d ds b ev ess).e_export_no_batt = e ∧
    (calculate_self_consumption e d ds b ev ess).e_self_direct +
        (calculate_self_consumption e d ds b ev ess).grid_import_no_batt =
        (calculate_self_consumption e d ds b ev ess).total_demand ∧
    (calculate_self_consumption e d ds b ev ess).e_self_direct +
        (calculate_self_consumption e d ds b ev ess).e_self_batt +
        (calculate_self_consumption e d ds b ev ess).e_export_batt = e ∧
    (calculate_self_consumption e d ds b ev ess).e_self_direct +
        (calculate_self_consumption e d ds b ev ess).e_self_batt +
        (calculate_self_consumption e d ds b ev ess).grid_import_with_batt =
        (calculate_self_consumption e d ds b ev ess).total_demand ∧
    0 ≤ (calculate_self_consumption e d ds b ev ess).e_self_direct ∧
    0 ≤ (calculate_self_consumption e d ds b ev ess).e_export_no_batt ∧
    0 ≤ (calculate_self_consumption e d ds b ev ess).grid_import_no_batt ∧
    0 ≤ (calculate_self_consumption e d ds b ev ess).e_self_batt ∧
    0 ≤ (calculate_self_consumption e d ds b ev ess).e_export_batt ∧
    0 ≤ (calculate_self_consumption e d ds b ev ess).grid_import_with_batt ∧
    0 ≤ (calculate_self_consumption e d ds b ev ess).ev_annual_kwh ∧
    0 ≤ (calculate_self_consumption e d ds b ev ess).ev_from_solar ∧
    0 ≤ (calculate_self_consumption e d ds b ev ess).ev_from_grid ∧
    0 ≤ (calculate_self_consumption e d ds b ev ess).total_demand := by
  subst hess
  simp only [csc_e_self_direct, csc_e_export_no_batt, csc_grid_import_no_batt,
    csc_e_self_batt, csc_e_export_batt, csc_grid_import_with_batt, csc_ev_annual_kwh,
    csc_ev_from_solar, csc_ev_from_grid, csc_total_demand]
  have hA0 := e_self_direct_nonneg he hd hds0
  have hAe := e_self_direct_le_e he hd hds0
  have hAd := e_self_direct_le_d he hd hds0 hds1
  have hSB0 := @e_self_batt_nonneg e d ds b ev (3/10) hb hev (by norm_num)
  have hSBe := @e_self_batt_le_surplus e d ds b ev (3/10) he hd hds0
  have hAB := @e_self_direct_add_batt_le e d ds b ev (3/10) he hd hds0 hds1 hev (by norm_num)
  have hFB0 := @ev_from_battery_nonneg e d ds b ev (3/10) hev (by norm_num)
  have hDS0 := @ev_direct_solar_nonneg e d ds b ev hev
  refine ⟨?_, ?_, ?_, ?_, hA0, le_max_left _ _, le_max_left _ _, hSB0, le_max_left _ _,
    le_max_left _ _, hev, by linarith, le_max_left _ _, by linarith⟩
  · rw [max_eq_right (by linarith)]
    ring
  · rw [max_eq_right (by linarith)]
    ring
  · rw [max_eq_right (by linarith)]
    ring
  · rw [max_eq_right (by linarith)]
    ring

theorem claim_C2_witness :
    (calculate_self_consumption 1 1 (1/2) 1 1 (3/10)).e_self_direct +
        (calculate_self_consumption 1 1 (1/2) 1 1 (3/10)).e_export_no_batt = 1 ∧
    (calculate_self_consumption 1 1 (1/2) 1 1 (3/10)).e_self_direct +
        (calculate_self_consumption 1 1 (1/2) 1 1 (3/10)).grid_import_no_batt =
        (calculate_self_consumption 1 1 (1/2) 1 1 (3/10)).total_demand ∧
    (calculate_self_consumption 1 1 (1/2) 1 1 (3/10)).e_self_direct +
        (calculate_self_consumption 1 1 (1/2) 1 1 (3/10)).e_self_batt +
        (calculate_self_consumption 1 1 (1/2) 1 1 (3/10)).e_export_batt = 1 ∧
    (calculate_self_consumption 1 1 (1/2) 1 1 (3/10)).e_self_direct +
        (calculate_self_consumption 1 1 (1/2) 1 1 (3/10)).e_self_batt +
        (calculate_self_consumption 1 1 (1/2) 1 1 (3/10)).grid_import_with_batt =
        (calculate_self_consumption 1 1 (1/2) 1 1 (3/10)).total_demand ∧
    0 ≤ (calculate_self_consumption 1 1 (1/2) 1 1 (3/10)).e_self_direct ∧
    0 ≤ (calculate_self_consumption 1 1 (1/2) 1 1 (3/10)).e_export_no_batt ∧
    0 ≤ (calculate_self_consumption 1 1 (1/2) 1 1 (3/10)).grid_import_no_batt ∧
    0 ≤ (calculate_self_consumption 1 1 (1/2) 1 1 (3/10)).e_self_batt ∧
    0 ≤ (calculate_self_consumption 1 1 (1/2) 1 1 (3/10)).e_export_batt ∧
    0 ≤ (calculate_self_consumption 1 1 (1/2) 1 1 (3/10)).grid_import_with_batt ∧
    0 ≤ (calculate_self_consumption 1 1 (1/2) 1 1 (3/10)).ev_annual_kwh ∧
    0 ≤ (calculate_self_consumption 1 1 (1/2) 1 1 (3/10)).ev_from_solar ∧
    0 ≤ (calculate_self_consumption 1 1 (1/2) 1 1 (3/10)).ev_from_grid ∧
    0 ≤ (calculate_self_consumption 1 1 (1/2) 1 1 (3/10)).total_demand :=
  claim_C2_energy_conservation 1 1 (1/2) 1 1 (3/10) (by norm_num) (by norm_num)
    (by norm_num) (by norm_num) (by norm_num) (by norm_num) rfl

/-- C3 fails on the code: with generation 365, zero household demand, an EV
demanding 100 kWh and EV solar share 0.3, growing the battery from 0.5 kWh
to 1 kWh (both within the 1 kWh/day exportable surplus) *decreases*
`e_self_batt` from 50 to 30 and *increases* `grid_import_with_batt` from 50
to 70, because a larger battery eats the surplus that fed daytime EV
charging (`ev_direct_solar`). -/
theorem claim_C3_counterexample :
    ((1:ℚ)/2 ≤ 1) ∧ e_surplus_daily 365 0 0 = 1 ∧
    (calculate_self_consumption 365 0 0 (1/2) 100 (3/10)).e_self_batt = 50 ∧
    (calculate_self_consumption 365 0 0 1 100 (3/10)).e_self_batt = 30 ∧
    (calculate_self_consumption 365 0 0 (1/2) 100 (3/10)).grid_import_with_batt = 50 ∧
    (calculate_self_consumption 365 0 0 1 100 (3/10)).grid_import_with_batt = 70 := by
  norm_num [calculate_self_consumption, e_self_batt, e_batt_to_house, ev_from_battery,
    ev_direct_solar, e_batt_remaining, e_batt_annual, e_batt_daily, e_surplus_daily,
    d_remaining_household, e_self_direct, f_direct, DAYS_PER_YEAR, min_def, max_def]

/-- C3 amended: with no EV demand (`ev_annual_kwh = 0`), increasing the
battery capacity within the daily exportable surplus never decreases
`e_self_batt` and never increases `grid_import_with_batt`. -/
theorem claim_C3_monotone_no_ev (e d ds b1 b2 ess : ℚ) (he : 0 ≤ e) (hd : 0 ≤ d)
    (hds0 : 0 ≤ ds) (hds1 : ds ≤ 1) (hb1 : 0 ≤ b1) (hb12 : b1 ≤ b2)
    (hsat : b2 ≤ e_surplus_daily e d ds) :
    (calculate_self_consumption e d ds b1 0 ess).e_self_batt ≤
      (calculate_self_consumption e d ds b2 0 ess).e_self_batt ∧
    (calculate_self_consumption e d ds b2 0 ess).grid_import_with_batt ≤
      (calculate_self_consumption e d ds b1 0 ess).grid_import_with_batt := by
  simp only [csc_e_self_batt, csc_grid_import_with_batt, e_self_batt_ev_zero]
  have hmono := @e_batt_to_house_mono e d ds b1 b2 hb12
  exact ⟨hmono, max_le_max le_rfl (by linarith)⟩

theorem claim_C3_witness :
    (calculate_self_consumption 365 100 (1/2) 0 0 (3/10)).e_self_batt ≤
      (calculate_self_consumption 365 100 (1/2) (1/2) 0 (3/10)).e_self_batt ∧
    (calculate_self_consumption 365 100 (1/2) (1/2) 0 (3/10)).grid_import_with_batt ≤
      (calculate_self_consumption 365 100 (1/2) 0 0 (3/10)).grid_import_with_batt :=
  claim_C3_monotone_no_ev 365 100 (1/2) 0 (1/2) (3/10) (by norm_num) (by norm_num)
    (by norm_num) (by norm_num) (by norm_num) (by norm_num)
    (by norm_num [e_surplus_daily, e_self_direct, f_direct, min_def, max_def, DAYS_PER_YEAR])

/-- C4 fails on the code: with a zero battery but an EV demanding 100 kWh,
`ev_direct_solar` still moves 20 kWh of generation into the "with battery"
totals, so they differ from the no-battery totals. -/
theorem claim_C4_counterexample :
    (calculate_self_consumption 1000 0 0 0 100 (3/10)).e_self_batt = 20 ∧
    (calculate_self_consumption 1000 0 0 0 100 (3/10)).e_export_batt = 980 ∧
    (calculate_self_consumption 1000 0 0 0 100 (3/10)).e_export_no_batt = 1000 ∧
    (calculate_self_consumption 1000 0 0 0 100 (3/10)).grid_import_with_batt = 80 ∧
    (calculate_self_consumption 1000 0 0 0 100 (3/10)).grid_import_no_batt = 100 := by
  norm_num [calculate_self_consumption, e_self_batt, e_batt_to_house, ev_from_battery,
    ev_direct_solar, e_batt_remaining, e_batt_annual, e_batt_daily, e_surplus_daily,
    d_remaining_household, e_self_direct, f_direct, DAYS_PER_YEAR, min_def, max_def]

/-- C4 amended: with `battery_kwh = 0` *and* `ev_annual_kwh = 0`, every
battery-related term vanishes and the with-battery totals coincide with the
no-battery totals. -/
theorem claim_C4_zero_battery_no_ev (e d ds ess : ℚ) :
    (calculate_self_consumption e d ds 0 0 ess).e_self_batt = 0 ∧
    (calculate_self_consumption e d ds 0 0 ess).ev_from_solar = 0 ∧
    (calculate_self_consumption e d ds 0 0 ess).ev_from_grid = 0 ∧
    (calculate_self_consumption e d ds 0 0 ess).e_export_batt =
      (calculate_self_consumption e d ds 0 0 ess).e_export_no_batt ∧
    (calculate_self_consumption e d ds 0 0 ess).grid_import_with_batt =
      (calculate_self_consumption e d ds 0 0 ess).grid_import_no_batt := by
  simp only [csc_e_self_batt, csc_ev_from_solar, csc_ev_from_grid, csc_e_export_batt,
    csc_e_export_no_batt, csc_grid_import_with_batt, csc_grid_import_no_batt,
    e_self_batt_ev_zero, e_batt_to_house_zero, ev_from_battery_ev_zero,
    ev_direct_solar_ev_zero]
  norm_num

/-! ## Heating-type lookups -/

theorem monthly_of_unknown (du : ℚ) (key : String) (h : HEATING_TYPES key = none) :
    calculate_monthly_consumption du key =
      CONSUMPTION_PROFILE_GAS.map (fun frac => du * frac) := by
  unfold calculate_monthly_consumption
  rw [h]

theorem adjust_of_unknown (bu : ℚ) (key : String) (h : HEATING_TYPES key = none) :
    adjust_consumption_for_heating bu key = bu := by
  unfold adjust_consumption_for_heating
  rw [h]
  exact mul_one bu

/-- C5 fails on the code: for the unknown heating key `"Hydrogen"` the
demand model signals nothing — `calculate_monthly_consumption` silently
returns the gas-profile distribution (the same list as for
`"Gas/Oil boiler"`) and `adjust_consumption_for_heating` silently applies
the default multiplier `1.0`. -/
theorem claim_C5_counterexample :
    HEATING_TYPES "Hydrogen" = none ∧
    calculate_monthly_consumption 100 "Hydrogen" =
      calculate_monthly_consumption 100 "Gas/Oil boiler" ∧
    adjust_consumption_for_heating 100 "Hydrogen" = 100 :=
  ⟨rfl, rfl, adjust_of_unknown 100 "Hydrogen" rfl⟩

/-- C5 amended: for every heating-type key outside the catalog the demand
model substitutes the defaults — the gas monthly profile and a base-usage
multiplier of `1.0` — rather than signalling a configuration error. -/
theorem claim_C5_unknown_heating_defaults (du bu : ℚ) (key : String)
    (h : HEATING_TYPES key = none) :
    calculate_monthly_consumption du key =
      CONSUMPTION_PROFILE_GAS.map (fun frac => du * frac) ∧
    adjust_consumption_for_heating bu key = bu :=
  ⟨monthly_of_unknown du key h, adjust_of_unknown bu key h⟩

theorem claim_C5_witness :
    calculate_monthly_consumption 3500 "Hydrogen" =
      CONSUMPTION_PROFILE_GAS.map (fun frac => (3500:ℚ) * frac) ∧
    adjust_consumption_for_heating 3500 "Hydrogen" = 3500 :=
  claim_C5_unknown_heating_defaults 3500 3500 "Hydrogen" rfl

/-- C6: the gas/oil monthly fractions sum to `0.94`, so the monthly
consumption distribution for `"Gas/Oil boiler"` sums to `0.94 × d` (strictly
less than `d` whenever `d > 0`); the electric profile sums to `1`. -/
theorem claim_C6_gas_profile_sum (du : ℚ) (hdu : 0 ≤ du) :
    (calculate_monthly_consumption du "Gas/Oil boiler").sum = (94/100) * du ∧
    (0 < du → (calculate_monthly_consumption du "Gas/Oil boiler").sum ≠ du) ∧
    CONSUMPTION_PROFILE_ELECTRIC.sum = 1 := by
  have hsum : (calculate_monthly_consumption du "Gas/Oil boiler").sum = 94/100 * du := by
    norm_num [calculate_monthly_consumption, HEATING_TYPES, CONSUMPTION_PROFILE_GAS]
    ring
  refine ⟨hsum, fun hpos => ?_, by norm_num [CONSUMPTION_PROFILE_ELECTRIC]⟩
  rw [hsum]
  intro hEq
  linarith

theorem claim_C6_witness :
    ((0:ℚ) ≤ 1000) ∧
    ((calculate_monthly_consumption 1000 "Gas/Oil boiler").sum = (94/100) * 1000 ∧
     (0 < (1000:ℚ) → (calculate_monthly_consumption 1000 "Gas/Oil boiler").sum ≠ 1000) ∧
     CONSUMPTION_PROFILE_ELECTRIC.sum = 1) :=
  ⟨by norm_num, claim_C6_gas_profile_sum 1000 (by norm_num)⟩

/-- C1: the code contradicts the claim (and the spec's own NPV rule).  At a
Purchase-mode input with install cost 1000, one projection year and zero
savings, the cumulative cashflow is seeded at `-1000` and every net benefit
is `0`, so the claimed NPV (seed plus discounted sum) is `-1000` — but the
code returns `npv = 0`: the Purchase branch never subtracts the upfront
install cost from the NPV. -/
theorem claim_C1_purchase_npv_omits_install_cost :
    (calculate_multi_year_cashflow 1000 0 0 (calculate_self_consumption 0 0 0 0 0 (3/10))
        0 0 0 1 0 false false 10 5 0 false 10 0).install_cost = 1000 ∧
    (calculate_multi_year_cashflow 1000 0 0 (calculate_self_consumption 0 0 0 0 0 (3/10))
        0 0 0 1 0 false false 10 5 0 false 10 0).annual_net_benefit = [0] ∧
    (calculate_multi_year_cashflow 1000 0 0 (calculate_self_consumption 0 0 0 0 0 (3/10))
        0 0 0 1 0 false false 10 5 0 false 10 0).cumulative_cashflow = [-1000] ∧
    (calculate_multi_year_cashflow 1000 0 0 (calculate_self_consumption 0 0 0 0 0 (3/10))
        0 0 0 1 0 false false 10 5 0 false 10 0).npv = 0 ∧
    (calculate_multi_year_cashflow 1000 0 0 (calculate_self_consumption 0 0 0 0 0 (3/10))
        0 0 0 1 0 false false 10 5 0 false 10 0).npv ≠ -1000 := by
  norm_num [calculate_multi_year_cashflow, calculate_self_consumption, e_self_batt,
    e_batt_to_house, ev_from_battery, ev_direct_solar, e_batt_remaining, e_batt_annual,
    e_batt_daily, e_surplus_daily, d_remaining_household, e_self_direct, f_direct,
    install_cost_of, deposit_amount_of, loan_amount_of, annual_loan_payment_of,
    total_interest_of, annual_lease_payment_of, total_lease_cost_of, cum0_of,
    annual_savings_list, annual_net_benefit_list, discounted_cashflow_list, npv_of,
    net_benefit_t, net_saving_t, cum_list, List.range_succ, min_def, max_def, DAYS_PER_YEAR]

/-! ## Payback search and cumulative cashflow -/

theorem first_payback_ne_some_zero (l : List ℚ) : first_payback l ≠ some 0 := by
  induction l with
  | nil => simp [first_payback]
  | cons c cs ih =>
    unfold first_payback
    split
    · simp
    · intro h
      rcases Option.map_eq_some'.mp h with ⟨a, _, hb⟩
      omega

theorem first_payback_none_iff (l : List ℚ) :
    first_payback l = none ↔ ∀ c ∈ l, c < 0 := by
  induction l with
  | nil => simp [first_payback]
  | cons c cs ih =>
    unfold first_payback
    by_cases hc : 0 ≤ c
    · rw [if_pos hc]
      constructor
      · intro h
        exact absurd h (by simp)
      · intro h
        exact absurd (h c (List.mem_cons_self c cs)) (not_lt.mpr hc)
    · rw [if_neg hc]
      simp [Option.map_eq_none', ih, List.forall_mem_cons, not_le.mp hc]

theorem first_payback_some_iff (l : List ℚ) (i : ℕ) :
    first_payback l = some (i + 1) ↔
      ∃ h : i < l.length, 0 ≤ l.get ⟨i, h⟩ ∧
        ∀ j (hj : j < l.length), j < i → l.get ⟨j, hj⟩ < 0 := by
  induction l generalizing i with
  | nil => simp [first_payback]
  | cons c cs ih =>
    unfold first_payback
    by_cases hc : 0 ≤ c
    · rw [if_pos hc]
      constructor
      · intro h
        have hi : i = 0 := by
          have := Option.some.inj h
          omega
        subst hi
        exact ⟨Nat.succ_pos _, hc, fun j hj hji => absurd hji (Nat.not_lt_zero j)⟩
      · rintro ⟨h, hget, hprev⟩
        rcases Nat.eq_zero_or_pos i with hi | hi
        · subst hi
          rfl
        · have h0 : (0:ℕ) < (c :: cs).length := Nat.succ_pos _
          have := hprev 0 h0 hi
          simp at this
          linarith
    · rw [if_neg hc]
      cases i with
      | zero =>
        constructor
        · intro h
          rcases Option.map_eq_some'.mp h with ⟨a, ha, hb⟩
          have ha0 : a = 0 := by omega
          subst ha0
          exact absurd ha (first_payback_ne_some_zero cs)
        · rintro ⟨h, hget, _⟩
          simp at hget
          exact absurd hget hc
      | succ k =>
        constructor
        · intro h
          rcases Option.map_eq_some'.mp h with ⟨a, ha, hb⟩
          have hak : a = k + 1 := by omega
          subst hak
          rcases (ih k).mp ha with ⟨hk, hget, hprev⟩
          refine ⟨Nat.succ_lt_succ hk, by simpa using hget, ?_⟩
          intro j hj hji
          cases j with
          | zero => simpa using not_le.mp hc
          | succ m =>
            have hm : m < cs.length := Nat.lt_of_succ_lt_succ hj
            have hmk : m < k := Nat.lt_of_succ_lt_succ hji
            simpa using hprev m hm hmk
        · rintro ⟨h, hget, hprev⟩
          have hk : k < cs.length := Nat.lt_of_succ_lt_succ h
          have h1 : first_payback cs = some (k + 1) := by
            rw [ih k]
            refine ⟨hk, by simpa using hget, ?_⟩
            intro m hm hmk
            have := hprev (m + 1) (Nat.succ_lt_succ hm) (Nat.succ_lt_succ hmk)
            simpa using this
          rw [h1]
          rfl

theorem cum_list_length (s : ℚ) (l : List ℚ) : (cum_list s l).length = l.length := by
  induction l generalizing s with
  | nil => rfl
  | cons x xs ih => simp [cum_list, ih]

theorem cum_list_get (s : ℚ) (l : List ℚ) (i : ℕ) (h : i < (cum_list s l).length) :
    (cum_list s l).get ⟨i, h⟩ = s + (l.take (i + 1)).sum := by
  induction l generalizing s i with
  | nil => simp [cum_list] at h
  | cons x xs ih =>
    cases i with
    | zero => simp [cum_list]
    | succ k =>
      have h' : k < (cum_list (s + x) xs).length := by
        simpa [cum_list] using h
      have := ih (s + x) k h'
      simp only [cum_list, List.get_cons_succ, List.take, List.sum_cons] at this ⊢
      rw [this]
      ring

/-- C7: the `payback_years` field of `calculate_multi_year_cashflow` is the
smallest one-based year index whose cumulative cashflow — seeded per
financing mode by `cum0_of` and accumulated over the yearly net benefits —
is nonnegative, and is the explicit `none` (not an error value) when no
year within the horizon pays back. -/
theorem claim_C7_payback_least (pv_cost battery_cost d_annual : ℚ) (sc : SelfConsumption)
    (grid_price_p seg_price_p annual_growth : ℚ) (years : ℕ) (discount_rate : ℚ)
    (include_battery finance_mode : Bool) (loan_term : ℕ) (loan_rate deposit_pct : ℚ)
    (lease_mode : Bool) (lease_term : ℕ) (monthly_lease : ℚ) (r : CashflowResult)
    (hres : r = calculate_multi_year_cashflow pv_cost battery_cost d_annual sc grid_price_p
      seg_price_p annual_growth years discount_rate include_battery finance_mode loan_term
      loan_rate deposit_pct lease_mode lease_term monthly_lease)
    (hyears : 1 ≤ years) :
    r.cumulative_cashflow.length = years ∧
    (∀ i (h : i < r.cumulative_cashflow.length),
      r.cumulative_cashflow.get ⟨i, h⟩ =
        cum0_of finance_mode lease_mode r.deposit_amount r.install_cost +
          (r.annual_net_benefit.take (i + 1)).sum) ∧
    (r.payback_years = none ↔ ∀ c ∈ r.cumulative_cashflow, c < 0) ∧
    (∀ i, r.payback_years = some (i + 1) ↔
      ∃ h : i < r.cumulative_cashflow.length,
        0 ≤ r.cumulative_cashflow.get ⟨i, h⟩ ∧
        ∀ j (hj : j < r.cumulative_cashflow.length), j < i →
          r.cumulative_cashflow.get ⟨j, hj⟩ < 0) ∧
    (∀ t, r.payback_years = some t → 1 ≤ t ∧ t ≤ years) := by
  subst hres
  simp only [calculate_multi_year_cashflow]
  refine ⟨?_, ?_, ?_, ?_, ?_⟩
  · rw [cum_list_length]
    simp [annual_net_benefit_list]
  · intro i h
    exact cum_list_get _ _ i h
  · exact first_payback_none_iff _
  · intro i
    exact first_payback_some_iff _ i
  · intro t ht
    cases t with
    | zero => exact absurd ht (first_payback_ne_some_zero _)
    | succ k =>
      rcases (first_payback_some_iff _ k).mp ht with ⟨h, _, _⟩
      rw [cum_list_length] at h
      simp only [annual_net_benefit_list, List.length_map, List.length_range] at h
      omega

theorem claim_C7_witness :
    (calculate_multi_year_cashflow 100 0 0 (calculate_self_consumption 0 0 0 0 0 (3/10))
        0 0 0 1 0 false false 10 5 0 false 10 0).cumulative_cashflow.length = 1 ∧
    (∀ i (h : i < (calculate_multi_year_cashflow 100 0 0
        (calculate_self_consumption 0 0 0 0 0 (3/10))
        0 0 0 1 0 false false 10 5 0 false 10 0).cumulative_cashflow.length),
      (calculate_multi_year_cashflow 100 0 0 (calculate_self_consumption 0 0 0 0 0 (3/10))
        0 0 0 1 0 false false 10 5 0 false 10 0).cumulative_cashflow.get ⟨i, h⟩ =
        cum0_of false false
          (calculate_multi_year_cashflow 100 0 0 (calculate_self_consumption 0 0 0 0 0 (3/10))
            0 0 0 1 0 false false 10 5 0 false 10 0).deposit_amount
          (calculate_multi_year_cashflow 100 0 0 (calculate_self_consumption 0 0 0 0 0 (3/10))
            0 0 0 1 0 false false 10 5 0 false 10 0).install_cost +
          (((calculate_multi_year_cashflow 100 0 0 (calculate_self_consumption 0 0 0 0 0 (3/10))
            0 0 0 1 0 false false 10 5 0 false 10 0).annual_net_benefit.take (i + 1)).sum)) ∧
    ((calculate_multi_year_cashflow 100 0 0 (calculate_self_consumption 0 0 0 0 0 (3/10))
        0 0 0 1 0 false false 10 5 0 false 10 0).payback_years = none ↔
      ∀ c ∈ (calculate_multi_year_cashflow 100 0 0 (calculate_self_consumption 0 0 0 0 0 (3/10))
        0 0 0 1 0 false false 10 5 0 false 10 0).cumulative_cashflow, c < 0) ∧
    (∀ i, (calculate_multi_year_cashflow 100 0 0 (calculate_self_consumption 0 0 0 0 0 (3/10))
        0 0 0 1 0 false false 10 5 0 false 10 0).payback_years = some (i + 1) ↔
      ∃ h : i < (calculate_multi_year_cashflow 100 0 0
          (calculate_self_consumption 0 0 0 0 0 (3/10))
          0 0 0 1 0 false false 10 5 0 false 10 0).cumulative_cashflow.length,
        0 ≤ (calculate_multi_year_cashflow 100 0 0 (calculate_self_consumption 0 0 0 0 0 (3/10))
          0 0 0 1 0 false false 10 5 0 false 10 0).cumulative_cashflow.get ⟨i, h⟩ ∧
        ∀ j (hj : j < (calculate_multi_year_cashflow 100 0 0
            (calculate_self_consumption 0 0 0 0 0 (3/10))
            0 0 0 1 0 false false 10 5 0 false 10 0).cumulative_cashflow.length), j < i →
          (calculate_multi_year_cashflow 100 0 0 (calculate_self_consumption 0 0 0 0 0 (3/10))
            0 0 0 1 0 false false 10 5 0 false 10 0).cumulative_cashflow.get ⟨j, hj⟩ < 0) ∧
    (∀ t, (calculate_multi_year_cashflow 100 0 0 (calculate_self_consumption 0 0 0 0 0 (3/10))
        0 0 0 1 0 false false 10 5 0 false 10 0).payback_years = some t →
      1 ≤ t ∧ t ≤ 1) :=
  claim_C7_payback_least 100 0 0 (calculate_self_consumption 0 0 0 0 0 (3/10))
    0 0 0 1 0 false false 10 5 0 false 10 0 _ rfl (by norm_num)

/-! ## Annuity present value -/

theorem annuity_pv (q : ℚ) (hq : 0 < q) (n : ℕ) :
    (∑ t in Finset.Icc 1 n, 1 / (1 + q) ^ t) = ((1 + q) ^ n - 1) / (q * (1 + q) ^ n) := by
  induction n with
  | zero => simp
  | succ k ih =>
    rw [Finset.sum_Icc_succ_top (by omega : 1 ≤ k + 1), ih]
    have h1 : (1 + q) ≠ 0 := by positivity
    have h2 : (1 + q) ^ k ≠ 0 := pow_ne_zero _ h1
    field_simp
    ring

/-- C8: the annual loan payment follows the standard amortization formula
(with `principal / n` at zero rate); the reported `total_interest` is
exactly `annual_loan_payment * loan_term - loan_amount`; and discounting
the `n` equal payments at the loan rate recovers the principal. -/
theorem claim_C8_amortization (L rate : ℚ) (n : ℕ) (hrate : 0 < rate) (hn : 1 ≤ n)
    (pv_cost battery_cost d_annual : ℚ) (sc : SelfConsumption)
    (grid_price_p seg_price_p annual_growth : ℚ) (years : ℕ)
    (discount_rate deposit_pct : ℚ) (include_battery lease_mode : Bool)
    (lease_term : ℕ) (monthly_lease : ℚ) (r : CashflowResult)
    (hres : r = calculate_multi_year_cashflow pv_cost battery_cost d_annual sc grid_price_p
      seg_price_p annual_growth years discount_rate include_battery true n rate deposit_pct
      lease_mode lease_term monthly_lease)
    (hpos : 0 < r.loan_amount) :
    calculate_loan_payment L rate n =
      L * ((rate / 100) * (1 + rate / 100) ^ n) / ((1 + rate / 100) ^ n - 1) ∧
    calculate_loan_payment L 0 n = L / (n : ℚ) ∧
    r.total_interest = r.annual_loan_payment * n - r.loan_amount ∧
    (∑ t in Finset.Icc 1 n, calculate_loan_payment L rate n / (1 + rate / 100) ^ t) = L := by
  subst hres
  simp only [calculate_multi_year_cashflow] at hpos ⊢
  have hP : calculate_loan_payment L rate n =
      L * ((rate / 100) * (1 + rate / 100) ^ n) / ((1 + rate / 100) ^ n - 1) := by
    unfold calculate_loan_payment
    rw [if_neg (ne_of_gt hrate)]
  refine ⟨hP, ?_, ?_, ?_⟩
  · unfold calculate_loan_payment
    rw [if_pos rfl, if_pos (by omega : 0 < n)]
  · unfold total_interest_of
    rw [if_pos ⟨rfl, hpos⟩]
  · have hq : (0:ℚ) < rate / 100 := by positivity
    have h1q : (0:ℚ) < 1 + rate / 100 := by linarith
    have h1 : (1:ℚ) + rate / 100 ≠ 0 := ne_of_gt h1q
    have hpow : (1:ℚ) < (1 + rate / 100) ^ n :=
      one_lt_pow₀ (by linarith) (by omega : n ≠ 0)
    have hden : ((1:ℚ) + rate / 100) ^ n - 1 ≠ 0 := ne_of_gt (by linarith)
    have hpn : ((1:ℚ) + rate / 100) ^ n ≠ 0 := pow_ne_zero _ h1
    have hterm : ∀ t ∈ Finset.Icc 1 n,
        calculate_loan_payment L rate n / (1 + rate / 100) ^ t =
          calculate_loan_payment L rate n * (1 / (1 + rate / 100) ^ t) :=
      fun t _ => div_eq_mul_one_div _ _
    rw [Finset.sum_congr rfl hterm, ← Finset.mul_sum, annuity_pv (rate / 100) hq n, hP]
    have hX0 : rate / 100 * (1 + rate / 100) ^ n ≠ 0 := mul_ne_zero (ne_of_gt hq) hpn
    generalize hXg : rate / 100 * (1 + rate / 100) ^ n = X
    generalize hYg : (1 + rate / 100) ^ n - 1 = Y
    rw [hXg] at hX0
    rw [hYg] at hden
    field_simp

theorem claim_C8_witness :
    calculate_loan_payment 1000 5 10 =
      1000 * ((5 / 100) * (1 + 5 / 100) ^ 10) / ((1 + 5 / 100) ^ 10 - 1) ∧
    calculate_loan_payment 1000 0 10 = 1000 / ((10 : ℕ) : ℚ) ∧
    (calculate_multi_year_cashflow 1000 0 0 (calculate_self_consumption 0 0 0 0 0 (3/10))
        0 0 0 1 0 false true 10 5 0 false 10 0).total_interest =
      (calculate_multi_year_cashflow 1000 0 0 (calculate_self_consumption 0 0 0 0 0 (3/10))
        0 0 0 1 0 false true 10 5 0 false 10 0).annual_loan_payment * (10 : ℕ) -
      (calculate_multi_year_cashflow 1000 0 0 (calculate_self_consumption 0 0 0 0 0 (3/10))
        0 0 0 1 0 false true 10 5 0 false 10 0).loan_amount ∧
    (∑ t in Finset.Icc 1 10, calculate_loan_payment 1000 5 10 / (1 + 5 / 100) ^ t) = 1000 :=
  claim_C8_amortization 1000 5 10 (by norm_num) (by norm_num) 1000 0 0
    (calculate_self_consumption 0 0 0 0 0 (3/10)) 0 0 0 1 0 0 false false 10 0 _ rfl
    (by norm_num [calculate_multi_year_cashflow, loan_amount_of, deposit_amount_of,
      install_cost_of])

/-! ## Loan mode silences the lease parameters -/

theorem annual_lease_payment_of_finance {la ml : ℚ} (lm : Bool) (h : 0 < la) :
    annual_lease_payment_of true lm la ml = 0 := by
  unfold annual_lease_payment_of
  exact if_neg (fun hc => hc.1 ⟨rfl, h⟩)

theorem total_lease_cost_of_finance {la alep ml : ℚ} (lm : Bool) (lt2 : ℕ) (h : 0 < la) :
    total_lease_cost_of true lm la alep ml lt2 = 0 := by
  unfold total_lease_cost_of
  exact if_neg (fun hc => hc.1 ⟨rfl, h⟩)

theorem net_benefit_t_finance (lm : Bool) (lt lt2 : ℕ) (alp s : ℚ) (t : ℕ) :
    net_benefit_t true lm lt lt2 alp 0 s t = if t ≤ lt then s - alp else s := by
  unfold net_benefit_t
  by_cases h : t ≤ lt
  · rw [if_pos ⟨rfl, h⟩, if_pos h]
  · rw [if_neg (fun hc => h hc.2), if_neg h]
    split_ifs with h2
    · exact sub_zero s
    · rfl

/-- C10: in Loan mode with a positive loan amount, the lease inputs are
noninterfering — two runs of `calculate_multi_year_cashflow` differing only
in `monthly_lease` and `lease_term` agree on every financially meaningful
output, and both report zero lease payments; only the echoed `lease_term`
field can differ. -/
theorem claim_C10_lease_noninterference (pv_cost battery_cost d_annual : ℚ)
    (sc : SelfConsumption) (grid_price_p seg_price_p annual_growth : ℚ) (years : ℕ)
    (discount_rate loan_rate deposit_pct : ℚ) (include_battery : Bool) (loan_term : ℕ)
    (lease_mode : Bool) (lease_term1 lease_term2 : ℕ) (monthly_lease1 monthly_lease2 : ℚ)
    (r1 r2 : CashflowResult)
    (hres1 : r1 = calculate_multi_year_cashflow pv_cost battery_cost d_annual sc grid_price_p
      seg_price_p annual_growth years discount_rate include_battery true loan_term
      loan_rate deposit_pct lease_mode lease_term1 monthly_lease1)
    (hres2 : r2 = calculate_multi_year_cashflow pv_cost battery_cost d_annual sc grid_price_p
      seg_price_p annual_growth years discount_rate include_battery true loan_term
      loan_rate deposit_pct lease_mode lease_term2 monthly_lease2)
    (hpos : 0 < r1.loan_amount) :
    r1.annual_savings = r2.annual_savings ∧
    r1.annual_net_benefit = r2.annual_net_benefit ∧
    r1.cumulative_cashflow = r2.cumulative_cashflow ∧
    r1.payback_years = r2.payback_years ∧
    r1.npv = r2.npv ∧
    r1.annual_lease_payment = 0 ∧
    r2.annual_lease_payment = 0 ∧
    r1.total_lease_cost = 0 ∧
    r2.total_lease_cost = 0 ∧
    r1.install_cost = r2.install_cost ∧
    r1.deposit_amount = r2.deposit_amount ∧
    r1.loan_amount = r2.loan_amount ∧
    r1.annual_loan_payment = r2.annual_loan_payment ∧
    r1.total_interest = r2.total_interest ∧
    r1.loan_term = r2.loan_term := by
  subst hres1
  subst hres2
  simp only [calculate_multi_year_cashflow] at hpos ⊢
  refine ⟨trivial, ?_, ?_, ?_, ?_, annual_lease_payment_of_finance _ hpos,
    annual_lease_payment_of_finance _ hpos, total_lease_cost_of_finance _ _ hpos,
    total_lease_cost_of_finance _ _ hpos, trivial, trivial, trivial, trivial,
    trivial, trivial⟩
  · simp only [annual_lease_payment_of_finance _ hpos, annual_net_benefit_list,
      net_benefit_t_finance]
  · simp only [annual_lease_payment_of_finance _ hpos, annual_net_benefit_list,
      net_benefit_t_finance]
  · simp only [annual_lease_payment_of_finance _ hpos, annual_net_benefit_list,
      net_benefit_t_finance]
  · simp only [annual_lease_payment_of_finance _ hpos, discounted_cashflow_list,
      net_benefit_t_finance]

theorem claim_C10_witness :
    (calculate_multi_year_cashflow 1000 0 0 (calculate_self_consumption 0 0 0 0 0 (3/10))
        0 0 0 2 0 false true 10 5 0 true 10 0).annual_savings =
      (calculate_multi_year_cashflow 1000 0 0 (calculate_self_consumption 0 0 0 0 0 (3/10))
        0 0 0 2 0 false true 10 5 0 true 5 50).annual_savings ∧
    (calculate_multi_year_cashflow 1000 0 0 (calculate_self_consumption 0 0 0 0 0 (3/10))
        0 0 0 2 0 false true 10 5 0 true 10 0).annual_net_benefit =
      (calculate_multi_year_cashflow 1000 0 0 (calculate_self_consumption 0 0 0 0 0 (3/10))
        0 0 0 2 0 false true 10 5 0 true 5 50).annual_net_benefit ∧
    (calculate_multi_year_cashflow 1000 0 0 (calculate_self_consumption 0 0 0 0 0 (3/10))
        0 0 0 2 0 false true 10 5 0 true 10 0).cumulative_cashflow =
      (calculate_multi_year_cashflow 1000 0 0 (calculate_self_consumption 0 0 0 0 0 (3/10))
        0 0 0 2 0 false true 10 5 0 true 5 50).cumulative_cashflow ∧
    (calculate_multi_year_cashflow 1000 0 0 (calculate_self_consumption 0 0 0 0 0 (3/10))
        0 0 0 2 0 false true 10 5 0 true 10 0).payback_years =
      (calculate_multi_year_cashflow 1000 0 0 (calculate_self_consumption 0 0 0 0 0 (3/10))
        0 0 0 2 0 false true 10 5 0 true 5 50).payback_years ∧
    (calculate_multi_year_cashflow 1000 0 0 (calculate_self_consumption 0 0 0 0 0 (3/10))
        0 0 0 2 0 false true 10 5 0 true 10 0).npv =
      (calculate_multi_year_cashflow 1000 0 0 (calculate_self_consumption 0 0 0 0 0 (3/10))
        0 0 0 2 0 false true 10 5 0 true 5 50).npv ∧
    (calculate_multi_year_cashflow 1000 0 0 (calculate_self_consumption 0 0 0 0 0 (3/10))
        0 0 0 2 0 false true 10 5 0 true 10 0).annual_lease_payment = 0 ∧
    (calculate_multi_year_cashflow 1000 0 0 (calculate_self_consumption 0 0 0 0 0 (3/10))
        0 0 0 2 0 false true 10 5 0 true 5 50).annual_lease_payment = 0 ∧
    (calculate_multi_year_cashflow 1000 0 0 (calculate_self_consumption 0 0 0 0 0 (3/10))
        0 0 0 2 0 false true 10 5 0 true 10 0).total_lease_cost = 0 ∧
    (calculate_multi_year_cashflow 1000 0 0 (calculate_self_consumption 0 0 0 0 0 (3/10))
        0 0 0 2 0 false true 10 5 0 true 5 50).total_lease_cost = 0 ∧
    (calculate_multi_year_cashflow 1000 0 0 (calculate_self_consumption 0 0 0 0 0 (3/10))
        0 0 0 2 0 false true 10 5 0 true 10 0).install_cost =
      (calculate_multi_year_cashflow 1000 0 0 (calculate_self_consumption 0 0 0 0 0 (3/10))
        0 0 0 2 0 false true 10 5 0 true 5 50).install_cost ∧
    (calculate_multi_year_cashflow 1000 0 0 (calculate_self_consumption 0 0 0 0 0 (3/10))
        0 0 0 2 0 false true 10 5 0 true 10 0).deposit_amount =
      (calculate_multi_year_cashflow 1000 0 0 (calculate_self_consumption 0 0 0 0 0 (3/10))
        0 0 0 2 0 false true 10 5 0 true 5 50).deposit_amount ∧
    (calculate_multi_year_cashflow 1000 0 0 (calculate_self_consumption 0 0 0 0 0 (3/10))
        0 0 0 2 0 false true 10 5 0 true 10 0).loan_amount =
      (calculate_multi_year_cashflow 1000 0 0 (calculate_self_consumption 0 0 0 0 0 (3/10))
        0 0 0 2 0 false true 10 5 0 true 5 50).loan_amount ∧
    (calculate_multi_year_cashflow 1000 0 0 (calculate_self_consumption 0 0 0 0 0 (3/10))
        0 0 0 2 0 false true 10 5 0 true 10 0).annual_loan_payment =
      (calculate_multi_year_cashflow 1000 0 0 (calculate_self_consumption 0 0 0 0 0 (3/10))
        0 0 0 2 0 false true 10 5 0 true 5 50).annual_loan_payment ∧
    (calculate_multi_year_cashflow 1000 0 0 (calculate_self_consumption 0 0 0 0 0 (3/10))
        0 0 0 2 0 false true 10 5 0 true 10 0).total_interest =
      (calculate_multi_year_cashflow 1000 0 0 (calculate_self_consumption 0 0 0 0 0 (3/10))
        0 0 0 2 0 false true 10 5 0 true 5 50).total_interest ∧
    (calculate_multi_year_cashflow 1000 0 0 (calculate_self_consumption 0 0 0 0 0 (3/10))
        0 0 0 2 0 false true 10 5 0 true 10 0).loan_term =
      (calculate_multi_year_cashflow 1000 0 0 (calculate_self_consumption 0 0 0 0 0 (3/10))
        0 0 0 2 0 false true 10 5 0 true 5 50).loan_term :=
  claim_C10_lease_noninterference 1000 0 0 (calculate_self_consumption 0 0 0 0 0 (3/10))
    0 0 0 2 0 5 0 false 10 true 10 5 0 50 _ _ rfl rfl
    (by norm_num [calculate_multi_year_cashflow, loan_amount_of, deposit_amount_of,
      install_cost_of])

/-! ## The concrete 4 kWp South England scenario -/

/-- C9 fails on the code: on the spec's concrete scenario the pipeline gives
`e_self_direct = 1120` exactly (the `0.8 × dDay` cap, since
`e_realistic × fDirect = 0.8 × 1400`), not `≈ 1120.4` as claimed, and
correspondingly `e_export_no_batt = 3435.2` (not `≈ 3434.8`) and
`grid_import_no_batt = 2380` (not `≈ 2379.6`): each claimed value is `0.4`
away from the computed one, far outside one-decimal display precision. -/
theorem claim_C9_counterexample :
    (calculate_self_consumption (22776/5) 3500 (2/5) 0 0 (3/10)).e_self_direct = 1120 ∧
    ¬(|(calculate_self_consumption (22776/5) 3500 (2/5) 0 0 (3/10)).e_self_direct -
        11204/10| ≤ 1/10) ∧
    (calculate_self_consumption (22776/5) 3500 (2/5) 0 0 (3/10)).e_export_no_batt =
      17176/5 ∧
    ¬(|(calculate_self_consumption (22776/5) 3500 (2/5) 0 0 (3/10)).e_export_no_batt -
        34348/10| ≤ 1/10) ∧
    (calculate_self_consumption (22776/5) 3500 (2/5) 0 0 (3/10)).grid_import_no_batt =
      2380 ∧
    ¬(|(calculate_self_consumption (22776/5) 3500 (2/5) 0 0 (3/10)).grid_import_no_batt -
        23796/10| ≤ 1/10) := by
  have h1 : (calculate_self_consumption (22776/5) 3500 (2/5) 0 0 (3/10)).e_self_direct
      = 1120 := by
    norm_num [calculate_self_consumption, e_self_direct, f_direct, min_def]
  have h2 : (calculate_self_consumption (22776/5) 3500 (2/5) 0 0 (3/10)).e_export_no_batt
      = 17176/5 := by
    norm_num [calculate_self_consumption, e_self_direct, f_direct, min_def, max_def]
  have h3 : (calculate_self_consumption (22776/5) 3500 (2/5)
      0 0 (3/10)).grid_import_no_batt = 2380 := by
    norm_num [calculate_self_consumption, e_self_direct, f_direct, min_def, max_def]
  refine ⟨h1, ?_, h2, ?_, h3, ?_⟩
  · rw [h1, show (1120 : ℚ) - 11204/10 = -(2/5) by norm_num, abs_neg,
      abs_of_nonneg (show (0:ℚ) ≤ 2/5 by norm_num)]
    norm_num
  · rw [h2, show (17176/5 : ℚ) - 34348/10 = 2/5 by norm_num,
      abs_of_nonneg (show (0:ℚ) ≤ 2/5 by norm_num)]
    norm_num
  · rw [h3, show (2380 : ℚ) - 23796/10 = 2/5 by norm_num,
      abs_of_nonneg (show (0:ℚ) ≤ 2/5 by norm_num)]
    norm_num

/-- C9 amended: exact values for the concrete scenario — capacity 4 kWp,
South England (0.13), Ideal orientation (1.00), battery 0, demand 3500 kWh
on the gas profile, no EV, daytime share 0.40, prices 28p/15p.  The pipeline
gives `theoretical = 35040`, `realistic = 4555.2`, `fDirect ≈ 0.2459`,
`e_self_direct = 1120` exactly, `e_export_no_batt = 3435.2`,
`grid_import_no_batt = 2380`, and year-1 `net_saving = 828.88 ≈ 828.9`. -/
theorem claim_C9_exact_values :
    calculate_generation 4 "South England" "Ideal (South)" =
      some { theoretical := 35040, realistic := 22776/5,
             capacity_factor := 13/100, kwh_per_kwp := 5694/5 } ∧
    adjust_consumption_for_heating 3500 "Gas/Oil boiler" = 3500 ∧
    (calculate_self_consumption (22776/5) 3500 (2/5) 0 0 (3/10)).e_self_direct = 1120 ∧
    |(calculate_self_consumption (22776/5) 3500 (2/5) 0 0 (3/10)).e_self_direct /
        (22776/5) - 2459/10000| ≤ 1/20000 ∧
    (calculate_self_consumption (22776/5) 3500 (2/5) 0 0 (3/10)).e_export_no_batt =
      17176/5 ∧
    (calculate_self_consumption (22776/5) 3500 (2/5) 0 0 (3/10)).grid_import_no_batt =
      2380 ∧
    (calculate_annual_financials 3500
      (calculate_self_consumption (22776/5) 3500 (2/5) 0 0 (3/10)).grid_import_no_batt
      (calculate_self_consumption (22776/5) 3500 (2/5) 0 0 (3/10)).e_export_no_batt
      28 15).net_saving = 20722/25 ∧
    |(calculate_annual_financials 3500
      (calculate_self_consumption (22776/5) 3500 (2/5) 0 0 (3/10)).grid_import_no_batt
      (calculate_self_consumption (22776/5) 3500 (2/5) 0 0 (3/10)).e_export_no_batt
      28 15).net_saving - 8289/10| ≤ 1/20 := by
  have hgen : calculate_generation 4 "South England" "Ideal (South)" =
      some { theoretical := 35040, realistic := 22776/5,
             capacity_factor := 13/100, kwh_per_kwp := 5694/5 } := by
    have hl : REGION_CAPACITY_FACTOR "South England" = some (13/100) := rfl
    have ho : ORIENTATION_FACTOR "Ideal (South)" = some 1 := rfl
    unfold calculate_generation
    rw [hl, ho]
    norm_num [Generation.mk.injEq, HOURS_PER_YEAR]
  have hadj : adjust_consumption_for_heating 3500 "Gas/Oil boiler" = 3500 := by
    norm_num [adjust_consumption_for_heating, HEATING_TYPES]
  have h1 : (calculate_self_consumption (22776/5) 3500 (2/5) 0 0 (3/10)).e_self_direct
      = 1120 := by
    norm_num [calculate_self_consumption, e_self_direct, f_direct, min_def]
  have h2 : (calculate_self_consumption (22776/5) 3500 (2/5) 0 0 (3/10)).e_export_no_batt
      = 17176/5 := by
    norm_num [calculate_self_consumption, e_self_direct, f_direct, min_def, max_def]
  have h3 : (calculate_self_consumption (22776/5) 3500 (2/5)
      0 0 (3/10)).grid_import_no_batt = 2380 := by
    norm_num [calculate_self_consumption, e_self_direct, f_direct, min_def, max_def]
  have hfin : (calculate_annual_financials 3500
      (calculate_self_consumption (22776/5) 3500 (2/5) 0 0 (3/10)).grid_import_no_batt
      (calculate_self_consumption (22776/5) 3500 (2/5) 0 0 (3/10)).e_export_no_batt
      28 15).net_saving = 20722/25 := by
    rw [h2, h3]
    norm_num [calculate_annual_financials]
  refine ⟨hgen, hadj, h1, ?_, h2, h3, hfin, ?_⟩
  · rw [h1, show (1120 : ℚ) / (22776/5) - 2459/10000 = -(773/28470000) by norm_num,
      abs_neg, abs_of_nonneg (show (0:ℚ) ≤ 773/28470000 by norm_num)]
    norm_num
  · rw [hfin, show (20722/25 : ℚ) - 8289/10 = -(1/50) by norm_num, abs_neg,
      abs_of_nonneg (show (0:ℚ) ≤ 1/50 by norm_num)]
    norm_num
